import Mathlib

/-!
Shallow embedding of `src/apps/passport-server/src/services/pagerDutyService.ts`
(the PagerDuty incident adapter of the zupass passport server).

The adapter performs HTTP calls through an injected transport, writes log
lines, and annotates a trace span.  The embedding makes those effects
explicit: each operation returns its result together with the ordered list
of effects it performed.  The HTTP transport and the `uuid()` generator are
environment oracles passed in as arguments; a transport either returns a
response (status code plus body) or fails, which models a thrown transport
exception.
-/

namespace PagerDuty

/-- Modelled from the spec: `IncidentPolicy` is declared in
`@pcd/passport-interface`, which is not under `src/`.  The members are
pinned by `src/`: the object literal `ESCALATION_POLICIES` is typed
`Record<IncidentPolicy, string>` and enumerates exactly the keys
`Everyone`, `JustIvan`, `JustRichard`, which compiles only if the enum has
exactly these three members. -/
inductive IncidentPolicy where
  | Everyone
  | JustIvan
  | JustRichard
deriving DecidableEq, Repr, Fintype

/-- `const SERVICE_NAME = "PagerDutyService"`. -/
def SERVICE_NAME : String := "PagerDutyService"

/-- `const LOG_TAG = `[${SERVICE_NAME}]``. -/
def LOG_TAG : String := "[" ++ SERVICE_NAME ++ "]"

/-- The fixed escalation-policy table `ESCALATION_POLICIES`.  In the source
it is an exhaustive `Record` from `IncidentPolicy` to policy-id strings. -/
def ESCALATION_POLICIES : IncidentPolicy → String
  | IncidentPolicy.Everyone => "P6SUJ1N"
  | IncidentPolicy.JustIvan => "P3PE907"
  | IncidentPolicy.JustRichard => "P88YCS9"

/-- `function getPolicyId(name) { return ESCALATION_POLICIES[name]; }` -/
def getPolicyId (name : IncidentPolicy) : String :=
  ESCALATION_POLICIES name

/-- The `service: { id, type }` object inside the trigger request body. -/
structure ServiceRef where
  id : String
  type : String
deriving DecidableEq, Repr

/-- The `body: { type, details }` object inside the trigger request body. -/
structure IncidentBodyObj where
  type : String
  details : String
deriving DecidableEq, Repr

/-- The `incident` object of the trigger request body. -/
structure IncidentObj where
  type : String
  title : String
  service : ServiceRef
  urgency : String
  incident_key : String
  body : IncidentBodyObj
deriving DecidableEq, Repr

/-- The `escalation_policy: { id }` object of the trigger request body. -/
structure EscalationPolicyRef where
  id : String
deriving DecidableEq, Repr

/-- The `data` object of the trigger request. -/
structure TriggerData where
  incident : IncidentObj
  escalation_policy : EscalationPolicyRef
deriving DecidableEq, Repr

/-- The request headers: the source always sends `From: "ivan@0xparc.org"`. -/
structure Headers where
  From : String
deriving DecidableEq, Repr

/-- The full request object passed to `api.post("/incidents", request)`. -/
structure TriggerRequest where
  headers : Headers
  data : TriggerData
deriving DecidableEq, Repr

/-- The `incident: { type, status }` object of the resolve request body. -/
structure ResolveIncidentRef where
  type : String
  status : String
deriving DecidableEq, Repr

/-- The `data` object of the resolve request. -/
structure ResolveData where
  incident : ResolveIncidentRef
deriving DecidableEq, Repr

/-- The full request object passed to `api.put(url, request)`. -/
structure ResolveRequest where
  headers : Headers
  data : ResolveData
deriving DecidableEq, Repr

/-- A response body as the code consumes it.  The success path reads
`responseBody.incident.id` and `responseBody.incident.incident_key`; a body
on which those reads succeed is `wellFormed`, any other body is
`malformed` (reading a field of a missing object throws a TypeError in
JavaScript, which the embedding models as an explicitly raised error). -/
inductive RespBody where
  | wellFormed (incidentId : String) (incidentKey : String)
  | malformed (repr : String)
deriving DecidableEq, Repr

/-- Modelled from the spec: `str` from `@pcd/util` (not under `src/`)
serializes the response body for inclusion in error messages. -/
def RespBody.str : RespBody → String
  | RespBody.wellFormed i k => "incident(" ++ i ++ ", " ++ k ++ ")"
  | RespBody.malformed r => r

/-- An HTTP response returned by the transport: status code and body. -/
structure HttpResp where
  status : Nat
  data : RespBody
deriving DecidableEq, Repr

/-- Errors that flow into the catch handlers: a transport-level failure
(the HTTP client threw), the `Error` thrown locally on an unexpected
status, or the TypeError raised when the response body is malformed. -/
inductive Err where
  | transport (e : String)
  | httpStatus (msg : String)
  | typeError (msg : String)
deriving DecidableEq, Repr

/-- Rendering of an error value into the string form the logger receives. -/
def renderErr : Err → String
  | Err.transport e => e
  | Err.httpStatus m => "Error: " ++ m
  | Err.typeError m => "TypeError: " ++ m

/-- Modelled from the spec: `logger` (`../util/logger`) is a line-oriented
sink and the telemetry service (`./telemetryService`) a span-recording
sink; `traced` supplies the active span.  Each operation is embedded as a
function that returns its result together with the ordered list of these
effects. -/
inductive Effect where
  | log (parts : List String)
  | spanTrace (label : String)
  | spanError (e : Err)
  | httpPost (path : String) (req : TriggerRequest)
  | httpPut (path : String) (req : ResolveRequest)
deriving DecidableEq, Repr

/-- Whether an effect is an outbound HTTP call. -/
def Effect.isHttp : Effect → Bool
  | Effect.httpPost _ _ => true
  | Effect.httpPut _ _ => true
  | _ => false

/-- The service class state: `api({ token })` and `this.serviceId`. -/
structure PagerDutyService where
  token : String
  serviceId : String
deriving DecidableEq, Repr

/-- The handle returned on success: `{ id, key }`. -/
structure IncidentHandle where
  id : String
  key : String
deriving DecidableEq, Repr

/-- The request object built inside `triggerIncident`, after the optional
arguments have been defaulted and the policy resolved. -/
def mkTriggerRequest (serviceId title message incidentKey policyId : String) :
    TriggerRequest :=
  { headers := { From := "ivan@0xparc.org" }
    data :=
      { incident :=
          { type := "incident"
            title := title
            service := { id := serviceId, type := "service_reference" }
            urgency := "high"
            incident_key := incidentKey
            body := { type := "incident_body", details := message } }
        escalation_policy := { id := policyId } } }

/-- Transport oracle for `api.post`: returns a response or fails, the
failure modelling a thrown transport exception. -/
def TriggerTransport : Type := TriggerRequest → Except String HttpResp

/-- Transport oracle for `api.put`. -/
def ResolveTransport : Type := ResolveRequest → Except String HttpResp

/-- The message of the log line written on entry to `triggerIncident`. -/
def triggeringLogMsg (title incidentKey : String) : String :=
  "triggering incident \x27" ++ title ++ "\x27 (\x27" ++ incidentKey ++ "\x27)"

/-- The message of the log line written by the catch handler of
`triggerIncident`; it names the title and the resolved dedup key. -/
def triggerFailLogMsg (title incidentKey : String) : String :=
  "failed to start incident " ++ title ++ " (\x27" ++ incidentKey ++ "\x27)"

/-- The catch handler of `triggerIncident`: `logger(LOG_TAG, msg, e)` then
`setError(e, span)`, and the overall call returns `undefined`. -/
def triggerCatch (title incidentKey : String) (e : Err) : List Effect :=
  [Effect.log [LOG_TAG, triggerFailLogMsg title incidentKey, renderErr e],
   Effect.spanError e]

/-- `PagerDutyService.triggerIncident(title, message?, policyName?,
incidentKey?)`.  `freshUuid` is the value `uuid()` returns in this call
(the `uuid` package is an environment oracle); `transport` is the HTTP
client.  Returns the JavaScript return value (`undefined` embedded as
`none`) together with the ordered effects. -/
def PagerDutyService.triggerIncident (svc : PagerDutyService) (title : String)
    (message? : Option String) (policyName? : Option IncidentPolicy)
    (incidentKey? : Option String) (freshUuid : String)
    (transport : TriggerTransport) :
    Option IncidentHandle × List Effect :=
  let incidentKey := incidentKey?.getD freshUuid
  let message := message?.getD ""
  let policyId := getPolicyId (policyName?.getD IncidentPolicy.Everyone)
  let request := mkTriggerRequest svc.serviceId title message incidentKey policyId
  let pre : List Effect :=
    [Effect.log [LOG_TAG, triggeringLogMsg title incidentKey],
     Effect.spanTrace "request",
     Effect.httpPost "/incidents" request]
  match transport request with
  | Except.error e =>
      (none, pre ++ triggerCatch title incidentKey (Err.transport e))
  | Except.ok res =>
      let afterResp := pre ++ [Effect.spanTrace "responseBody"]
      if res.status ≠ 201 then
        let e := Err.httpStatus
          ("failed to invoke pagerduty (" ++ title ++ "): " ++ res.data.str)
        (none, afterResp ++ triggerCatch title incidentKey e)
      else
        match res.data with
        | RespBody.wellFormed i k =>
            (some { id := i, key := k }, afterResp)
        | RespBody.malformed r =>
            let e := Err.typeError
              ("cannot read incident fields of " ++ r)
            (none, afterResp ++ triggerCatch title incidentKey e)

/-- The request object built inside `resolveIncident`. -/
def mkResolveRequest : ResolveRequest :=
  { headers := { From := "ivan@0xparc.org" }
    data := { incident := { type := "incident_reference", status := "resolved" } } }

/-- The message of the log line written by the catch handler of
`resolveIncident` (the source says "failed to start incident" here too). -/
def resolveFailLogMsg (id : String) : String :=
  "failed to start incident " ++ id

/-- The message of the confirmation log line of `resolveIncident`. -/
def resolvedLogMsg (id : String) : String :=
  "resolved incident \x27" ++ id ++ "\x27"

/-- `PagerDutyService.resolveIncident(id)`.  The JavaScript function
returns `undefined` in every case; the embedding therefore returns only
the ordered effects.  The catch handler runs `setError(e, span)` first and
`logger(...)` second, matching the source order. -/
def PagerDutyService.resolveIncident (_svc : PagerDutyService) (id : String)
    (transport : ResolveTransport) : List Effect :=
  let url := "/incidents/" ++ id
  let request := mkResolveRequest
  let pre : List Effect :=
    [Effect.log [LOG_TAG,
       "resolving incident \x27" ++ id ++ "\x27 by hitting \x27" ++ url ++ "\x27"],
     Effect.spanTrace "request",
     Effect.httpPut url request]
  let catchEffects (e : Err) : List Effect :=
    [Effect.spanError e,
     Effect.log [LOG_TAG, resolveFailLogMsg id, renderErr e]]
  match transport request with
  | Except.error e => pre ++ catchEffects (Err.transport e)
  | Except.ok res =>
      let afterResp := pre ++ [Effect.spanTrace "responseBody"]
      if res.status ≠ 200 then
        let e := Err.httpStatus
          ("failed to resolve pagerduty (" ++ id ++ "): " ++ res.data.str)
        afterResp ++ catchEffects e
      else
        afterResp ++ [Effect.log [LOG_TAG, resolvedLogMsg id]]

/-- The process environment as `startPagerDutyService` reads it: the two
variables, each either unset (`none`) or set to a string. -/
structure Env where
  PAGER_DUTY_API_KEY : Option String
  PAGER_DUTY_SERVICE_ID : Option String
deriving DecidableEq, Repr

/-- JavaScript truthiness of an environment variable: `!process.env.X` is
true when the variable is unset or set to the empty string. -/
def truthy : Option String → Bool
  | none => false
  | some s => !(s == "")

/-- The first log line of `startPagerDutyService`. -/
def initLogMsg : String := "[INIT] attempting to start pager duty"

/-- The diagnostic logged when an environment variable is missing.  The
source uses this exact text, naming `PAGER_DUTY_API_KEY`, in BOTH missing
branches. -/
def missingApiKeyMsg : String :=
  "[INIT] can\x27t start pager duty - missing environment variable PAGER_DUTY_API_KEY"

/-- `startPagerDutyService()`: reads the two environment variables, logs,
and either constructs the service or returns `null` (embedded as `none`).
Returns the result together with the effects. -/
def startPagerDutyService (env : Env) :
    Option PagerDutyService × List Effect :=
  let l0 := Effect.log [initLogMsg]
  if !(truthy env.PAGER_DUTY_API_KEY) then
    (none, [l0, Effect.log [missingApiKeyMsg]])
  else if !(truthy env.PAGER_DUTY_SERVICE_ID) then
    (none, [l0, Effect.log [missingApiKeyMsg]])
  else
    (some { token := env.PAGER_DUTY_API_KEY.getD ""
            serviceId := env.PAGER_DUTY_SERVICE_ID.getD "" },
     [l0])

end PagerDuty

namespace PagerDuty

/-- Helper: the effect list of `triggerIncident` always starts with the
entry log, the request span annotation and the single POST built by
`mkTriggerRequest`, and the remaining effects contain no HTTP call. -/
theorem triggerIncident_effects_shape (svc : PagerDutyService) (title : String)
    (message? : Option String) (policyName? : Option IncidentPolicy)
    (incidentKey? : Option String) (freshUuid : String)
    (transport : TriggerTransport) :
    ∃ tail : List Effect,
      (svc.triggerIncident title message? policyName? incidentKey? freshUuid
          transport).2
        = Effect.log [LOG_TAG, triggeringLogMsg title (incidentKey?.getD freshUuid)]
          :: Effect.spanTrace "request"
          :: Effect.httpPost "/incidents"
              (mkTriggerRequest svc.serviceId title (message?.getD "")
                (incidentKey?.getD freshUuid)
                (getPolicyId (policyName?.getD IncidentPolicy.Everyone)))
          :: tail
      ∧ ∀ e ∈ tail, e.isHttp = false := by
  simp only [PagerDutyService.triggerIncident]
  cases htr : transport (mkTriggerRequest svc.serviceId title (message?.getD "")
      (incidentKey?.getD freshUuid)
      (getPolicyId (policyName?.getD IncidentPolicy.Everyone))) with
  | error e =>
      refine ⟨triggerCatch title (incidentKey?.getD freshUuid) (Err.transport e),
        by simp [triggerCatch], ?_⟩
      intro x hx
      simp [triggerCatch] at hx
      rcases hx with h | h <;> subst h <;> rfl
  | ok res =>
      by_cases hs : res.status = 201
      · cases hd : res.data with
        | wellFormed i k =>
            refine ⟨[Effect.spanTrace "responseBody"], by simp [hs, hd], ?_⟩
            intro x hx
            simp at hx
            subst hx; rfl
        | malformed r =>
            refine ⟨Effect.spanTrace "responseBody"
                :: triggerCatch title (incidentKey?.getD freshUuid)
                  (Err.typeError ("cannot read incident fields of " ++ r)),
              by simp [hs, hd, triggerCatch], ?_⟩
            intro x hx
            simp [triggerCatch] at hx
            rcases hx with h | h | h <;> subst h <;> rfl
      · refine ⟨Effect.spanTrace "responseBody"
            :: triggerCatch title (incidentKey?.getD freshUuid)
              (Err.httpStatus
                ("failed to invoke pagerduty (" ++ title ++ "): " ++ res.data.str)),
          by simp [hs, triggerCatch], ?_⟩
        intro x hx
        simp [triggerCatch] at hx
        rcases hx with h | h | h <;> subst h <;> rfl

end PagerDuty

namespace PagerDuty

/-- C1: for every input and every transport behaviour, if the POST returns
a status other than 201 or the transport call itself throws,
`triggerIncident` returns `undefined` instead of throwing, logs the
failure (the log message names the title and the resolved dedup key), and
attaches the error to the active trace span. -/
theorem triggerIncident_absorbs_failures
    (svc : PagerDutyService) (title : String) (message? : Option String)
    (policyName? : Option IncidentPolicy) (incidentKey? : Option String)
    (freshUuid : String) (transport : TriggerTransport)
    (hfail : ∀ r : HttpResp,
      transport (mkTriggerRequest svc.serviceId title (message?.getD "")
          (incidentKey?.getD freshUuid)
          (getPolicyId (policyName?.getD IncidentPolicy.Everyone)))
        = Except.ok r → r.status ≠ 201) :
    (svc.triggerIncident title message? policyName? incidentKey? freshUuid
        transport).1 = none
    ∧ ∃ e : Err,
        Effect.log [LOG_TAG,
            triggerFailLogMsg title (incidentKey?.getD freshUuid), renderErr e]
          ∈ (svc.triggerIncident title message? policyName? incidentKey?
              freshUuid transport).2
        ∧ Effect.spanError e
          ∈ (svc.triggerIncident title message? policyName? incidentKey?
              freshUuid transport).2 := by
  simp only [PagerDutyService.triggerIncident]
  cases htr : transport (mkTriggerRequest svc.serviceId title (message?.getD "")
      (incidentKey?.getD freshUuid)
      (getPolicyId (policyName?.getD IncidentPolicy.Everyone))) with
  | error e =>
      exact ⟨rfl, Err.transport e, by simp [triggerCatch], by simp [triggerCatch]⟩
  | ok res =>
      have hs : res.status ≠ 201 := hfail res htr
      exact ⟨by simp [hs],
        Err.httpStatus ("failed to invoke pagerduty (" ++ title ++ "): "
          ++ res.data.str),
        by simp [hs, triggerCatch], by simp [hs, triggerCatch]⟩

/-- Witness for C1: a transport that throws (connection refused) at a
concrete input; the call returns `none`, logs the failure and records a
span error. -/
theorem triggerIncident_absorbs_failures_witness :
    (PagerDutyService.triggerIncident ⟨"token1", "SVC1"⟩ "DB down" none none
        none "uuid-0" (fun _ => Except.error "ECONNREFUSED")).1 = none
    ∧ ∃ e : Err,
        Effect.log [LOG_TAG, triggerFailLogMsg "DB down" "uuid-0", renderErr e]
          ∈ (PagerDutyService.triggerIncident ⟨"token1", "SVC1"⟩ "DB down" none
              none none "uuid-0" (fun _ => Except.error "ECONNREFUSED")).2
        ∧ Effect.spanError e
          ∈ (PagerDutyService.triggerIncident ⟨"token1", "SVC1"⟩ "DB down" none
              none none "uuid-0" (fun _ => Except.error "ECONNREFUSED")).2 :=
  triggerIncident_absorbs_failures ⟨"token1", "SVC1"⟩ "DB down" none none none
    "uuid-0" (fun _ => Except.error "ECONNREFUSED")
    (fun _ h => Except.noConfusion h)

/-- C2: for every transport response with status 201 (and a readable
incident object), `triggerIncident` returns the handle whose `id` is the
body incident id and whose `key` is the body incident key. -/
theorem triggerIncident_success_handle
    (svc : PagerDutyService) (title : String) (message? : Option String)
    (policyName? : Option IncidentPolicy) (incidentKey? : Option String)
    (freshUuid : String) (transport : TriggerTransport) (i k : String)
    (h : transport (mkTriggerRequest svc.serviceId title (message?.getD "")
        (incidentKey?.getD freshUuid)
        (getPolicyId (policyName?.getD IncidentPolicy.Everyone)))
      = Except.ok ⟨201, RespBody.wellFormed i k⟩) :
    (svc.triggerIncident title message? policyName? incidentKey? freshUuid
        transport).1 = some ⟨i, k⟩ := by
  simp only [PagerDutyService.triggerIncident]
  rw [h]
  simp

/-- Witness for C2: the spec scenario — response
`{status: 201, data: {incident: {id: "INC1", incident_key: "abc"}}}` yields
the handle `{id: "INC1", key: "abc"}`. -/
theorem triggerIncident_success_handle_witness :
    (PagerDutyService.triggerIncident ⟨"token1", "SVC1"⟩ "DB down" none none
        none "uuid-0"
        (fun _ => Except.ok ⟨201, RespBody.wellFormed "INC1" "abc"⟩)).1
      = some ⟨"INC1", "abc"⟩ :=
  triggerIncident_success_handle ⟨"token1", "SVC1"⟩ "DB down" none none none
    "uuid-0" (fun _ => Except.ok ⟨201, RespBody.wellFormed "INC1" "abc"⟩)
    "INC1" "abc" rfl

/-- C10: a 201 response whose body lacks a readable incident object is
absorbed by the same catch handler as transport errors: the call returns
`undefined`, records the error on the span, and logs the failure. -/
theorem triggerIncident_malformed_body_absorbed
    (svc : PagerDutyService) (title : String) (message? : Option String)
    (policyName? : Option IncidentPolicy) (incidentKey? : Option String)
    (freshUuid : String) (transport : TriggerTransport) (s : String)
    (h : transport (mkTriggerRequest svc.serviceId title (message?.getD "")
        (incidentKey?.getD freshUuid)
        (getPolicyId (policyName?.getD IncidentPolicy.Everyone)))
      = Except.ok ⟨201, RespBody.malformed s⟩) :
    (svc.triggerIncident title message? policyName? incidentKey? freshUuid
        transport).1 = none
    ∧ ∃ e : Err,
        Effect.log [LOG_TAG,
            triggerFailLogMsg title (incidentKey?.getD freshUuid), renderErr e]
          ∈ (svc.triggerIncident title message? policyName? incidentKey?
              freshUuid transport).2
        ∧ Effect.spanError e
          ∈ (svc.triggerIncident title message? policyName? incidentKey?
              freshUuid transport).2 := by
  simp only [PagerDutyService.triggerIncident]
  rw [h]
  exact ⟨by simp, Err.typeError ("cannot read incident fields of " ++ s),
    by simp [triggerCatch], by simp [triggerCatch]⟩

/-- Witness for C10: a 201 response with an unreadable body at a concrete
input returns `none` and records log and span error. -/
theorem triggerIncident_malformed_body_absorbed_witness :
    (PagerDutyService.triggerIncident ⟨"token1", "SVC1"⟩ "DB down" none none
        none "uuid-0"
        (fun _ => Except.ok ⟨201, RespBody.malformed "null"⟩)).1 = none
    ∧ ∃ e : Err,
        Effect.log [LOG_TAG, triggerFailLogMsg "DB down" "uuid-0", renderErr e]
          ∈ (PagerDutyService.triggerIncident ⟨"token1", "SVC1"⟩ "DB down" none
              none none "uuid-0"
              (fun _ => Except.ok ⟨201, RespBody.malformed "null"⟩)).2
        ∧ Effect.spanError e
          ∈ (PagerDutyService.triggerIncident ⟨"token1", "SVC1"⟩ "DB down" none
              none none "uuid-0"
              (fun _ => Except.ok ⟨201, RespBody.malformed "null"⟩)).2 :=
  triggerIncident_malformed_body_absorbed ⟨"token1", "SVC1"⟩ "DB down" none
    none none "uuid-0" (fun _ => Except.ok ⟨201, RespBody.malformed "null"⟩)
    "null" rfl

end PagerDuty

namespace PagerDuty

/-- C3: `resolveIncident` never raises to the caller (its embedding is a
total function returning only effects): with a 200 response it logs the
confirmation and records no span error; with any other status, or a
transport failure, it records the error on the span and logs the failure,
and still returns normally. -/
theorem resolveIncident_policy (svc : PagerDutyService) (id : String)
    (transport : ResolveTransport) :
    (∀ r : HttpResp, transport mkResolveRequest = Except.ok r →
        r.status = 200 →
        Effect.log [LOG_TAG, resolvedLogMsg id] ∈ svc.resolveIncident id transport
        ∧ ∀ e : Err, Effect.spanError e ∉ svc.resolveIncident id transport)
    ∧ (∀ r : HttpResp, transport mkResolveRequest = Except.ok r →
        r.status ≠ 200 →
        ∃ e : Err, Effect.spanError e ∈ svc.resolveIncident id transport
          ∧ Effect.log [LOG_TAG, resolveFailLogMsg id, renderErr e]
              ∈ svc.resolveIncident id transport)
    ∧ (∀ es : String, transport mkResolveRequest = Except.error es →
        ∃ e : Err, Effect.spanError e ∈ svc.resolveIncident id transport
          ∧ Effect.log [LOG_TAG, resolveFailLogMsg id, renderErr e]
              ∈ svc.resolveIncident id transport) := by
  refine ⟨?_, ?_, ?_⟩
  · intro r hr hs
    simp only [PagerDutyService.resolveIncident]
    rw [hr]
    exact ⟨by simp [hs], fun e => by simp [hs]⟩
  · intro r hr hs
    simp only [PagerDutyService.resolveIncident]
    rw [hr]
    exact ⟨Err.httpStatus ("failed to resolve pagerduty (" ++ id ++ "): "
        ++ r.data.str),
      by simp [hs], by simp [hs]⟩
  · intro es he
    simp only [PagerDutyService.resolveIncident]
    rw [he]
    exact ⟨Err.transport es, by simp, by simp⟩

/-- Witness for C3: a 200 response at a concrete input logs the
confirmation line. -/
theorem resolveIncident_policy_witness :
    Effect.log [LOG_TAG, resolvedLogMsg "INC1"]
      ∈ PagerDutyService.resolveIncident ⟨"token1", "SVC1"⟩ "INC1"
          (fun _ => Except.ok ⟨200, RespBody.malformed "ok"⟩) :=
  ((resolveIncident_policy ⟨"token1", "SVC1"⟩ "INC1"
      (fun _ => Except.ok ⟨200, RespBody.malformed "ok"⟩)).1
    ⟨200, RespBody.malformed "ok"⟩ rfl rfl).1

/-- C7: every invocation of `triggerIncident` issues exactly one HTTP
call, a POST to `/incidents`, whose body has the documented shape —
incident type marker, title, service reference to the configured service
id, urgency fixed at "high", the resolved dedup key, a body object with
the message, the resolved escalation-policy id — and whose headers carry
the fixed From sender address. -/
theorem triggerIncident_exactly_one_post (svc : PagerDutyService)
    (title : String) (message? : Option String)
    (policyName? : Option IncidentPolicy) (incidentKey? : Option String)
    (freshUuid : String) (transport : TriggerTransport) :
    ∃ req : TriggerRequest,
      ((svc.triggerIncident title message? policyName? incidentKey? freshUuid
          transport).2.filter Effect.isHttp)
        = [Effect.httpPost "/incidents" req]
      ∧ req.headers.From = "ivan@0xparc.org"
      ∧ req.data.incident.type = "incident"
      ∧ req.data.incident.title = title
      ∧ req.data.incident.service = ⟨svc.serviceId, "service_reference"⟩
      ∧ req.data.incident.urgency = "high"
      ∧ req.data.incident.incident_key = incidentKey?.getD freshUuid
      ∧ req.data.incident.body = ⟨"incident_body", message?.getD ""⟩
      ∧ req.data.escalation_policy.id
          = getPolicyId (policyName?.getD IncidentPolicy.Everyone) := by
  obtain ⟨tail, heq, htail⟩ := triggerIncident_effects_shape svc title message?
    policyName? incidentKey? freshUuid transport
  refine ⟨mkTriggerRequest svc.serviceId title (message?.getD "")
      (incidentKey?.getD freshUuid)
      (getPolicyId (policyName?.getD IncidentPolicy.Everyone)),
    ?_, rfl, rfl, rfl, rfl, rfl, rfl, rfl, rfl⟩
  rw [heq]
  simp only [List.filter_cons, Effect.isHttp]
  simp only [Bool.false_eq_true, if_false, if_true]
  rw [List.filter_eq_nil_iff.mpr (fun a ha => by simp [htail a ha])]

/-- C6: each omitted optional argument of `triggerIncident` is replaced by
its default before the request is built — message becomes the empty
string, policy becomes the Everyone policy, and the dedup key becomes the
freshly generated token of that call, so two calls whose generated tokens
differ use differing keys. -/
theorem triggerIncident_defaults (svc : PagerDutyService) (title : String)
    (u1 u2 : String) (t1 t2 : TriggerTransport) (h : u1 ≠ u2) :
    ∃ req1 req2 : TriggerRequest,
      Effect.httpPost "/incidents" req1
        ∈ (svc.triggerIncident title none none none u1 t1).2
      ∧ Effect.httpPost "/incidents" req2
        ∈ (svc.triggerIncident title none none none u2 t2).2
      ∧ req1.data.incident.body.details = ""
      ∧ req1.data.escalation_policy.id = getPolicyId IncidentPolicy.Everyone
      ∧ req1.data.incident.incident_key = u1
      ∧ req2.data.incident.incident_key = u2
      ∧ req1.data.incident.incident_key ≠ req2.data.incident.incident_key := by
  obtain ⟨tl1, he1, -⟩ := triggerIncident_effects_shape svc title none none none u1 t1
  obtain ⟨tl2, he2, -⟩ := triggerIncident_effects_shape svc title none none none u2 t2
  refine ⟨mkTriggerRequest svc.serviceId title "" u1 (getPolicyId IncidentPolicy.Everyone),
    mkTriggerRequest svc.serviceId title "" u2 (getPolicyId IncidentPolicy.Everyone),
    ?_, ?_, rfl, rfl, rfl, rfl, h⟩
  · rw [he1]; simp
  · rw [he2]; simp

/-- Witness for C6: two calls with distinct generated tokens at concrete
inputs. -/
theorem triggerIncident_defaults_witness :
    ∃ req1 req2 : TriggerRequest,
      Effect.httpPost "/incidents" req1
        ∈ (PagerDutyService.triggerIncident ⟨"token1", "SVC1"⟩ "DB down" none
            none none "uuid-1" (fun _ => Except.error "down")).2
      ∧ Effect.httpPost "/incidents" req2
        ∈ (PagerDutyService.triggerIncident ⟨"token1", "SVC1"⟩ "DB down" none
            none none "uuid-2" (fun _ => Except.error "down")).2
      ∧ req1.data.incident.body.details = ""
      ∧ req1.data.escalation_policy.id = getPolicyId IncidentPolicy.Everyone
      ∧ req1.data.incident.incident_key = "uuid-1"
      ∧ req2.data.incident.incident_key = "uuid-2"
      ∧ req1.data.incident.incident_key ≠ req2.data.incident.incident_key :=
  triggerIncident_defaults ⟨"token1", "SVC1"⟩ "DB down" "uuid-1" "uuid-2"
    (fun _ => Except.error "down") (fun _ => Except.error "down")
    (by decide)

/-- C8: every invocation of `resolveIncident` issues exactly one HTTP
call, a PUT to `/incidents/{id}`, with the incident-reference resolved
body and the same fixed From header as `triggerIncident`. -/
theorem resolveIncident_exactly_one_put (svc : PagerDutyService)
    (id : String) (transport : ResolveTransport) :
    ((svc.resolveIncident id transport).filter Effect.isHttp)
      = [Effect.httpPut ("/incidents/" ++ id) mkResolveRequest]
    ∧ mkResolveRequest.data.incident = ⟨"incident_reference", "resolved"⟩
    ∧ mkResolveRequest.headers.From = "ivan@0xparc.org"
    ∧ ∀ serviceId title message incidentKey policyId : String,
        mkResolveRequest.headers
          = (mkTriggerRequest serviceId title message incidentKey
              policyId).headers := by
  refine ⟨?_, rfl, rfl, fun _ _ _ _ _ => rfl⟩
  simp only [PagerDutyService.resolveIncident]
  cases htr : transport mkResolveRequest with
  | error e => simp [Effect.isHttp]
  | ok res =>
      by_cases hs : res.status = 200 <;>
        simp [hs, Effect.isHttp]

end PagerDuty

namespace PagerDuty

/-- Counterexample to C4 as stated: with `PAGER_DUTY_API_KEY` present but
set to the empty string (and `PAGER_DUTY_SERVICE_ID` present and
non-empty), both variables are present yet `startPagerDutyService`
returns `null`, because the source tests JavaScript truthiness
(`!process.env.X`), not presence. -/
theorem startPagerDutyService_present_empty_counterexample :
    (Env.mk (some "") (some "SVC1")).PAGER_DUTY_API_KEY.isSome = true
    ∧ (Env.mk (some "") (some "SVC1")).PAGER_DUTY_SERVICE_ID.isSome = true
    ∧ (startPagerDutyService (Env.mk (some "") (some "SVC1"))).1 = none := by
  refine ⟨rfl, rfl, by decide⟩

/-- C4 (amended): `startPagerDutyService` returns a constructed instance
exactly when both environment variables are set to non-empty (truthy)
values; otherwise it logs the missing-variable diagnostic and returns
`null`; in every case it performs no HTTP calls. -/
theorem startPagerDutyService_gate (env : Env) :
    ((startPagerDutyService env).1.isSome
      = (truthy env.PAGER_DUTY_API_KEY && truthy env.PAGER_DUTY_SERVICE_ID))
    ∧ ((truthy env.PAGER_DUTY_API_KEY
          && truthy env.PAGER_DUTY_SERVICE_ID) = false →
        Effect.log [missingApiKeyMsg] ∈ (startPagerDutyService env).2)
    ∧ (∀ eff ∈ (startPagerDutyService env).2, eff.isHttp = false)
    ∧ ((truthy env.PAGER_DUTY_API_KEY
          && truthy env.PAGER_DUTY_SERVICE_ID) = true →
        (startPagerDutyService env).1
          = some ⟨env.PAGER_DUTY_API_KEY.getD "",
              env.PAGER_DUTY_SERVICE_ID.getD ""⟩) := by
  cases h1 : truthy env.PAGER_DUTY_API_KEY <;>
    cases h2 : truthy env.PAGER_DUTY_SERVICE_ID <;>
      simp [startPagerDutyService, h1, h2, Effect.isHttp]

/-- Witness for C4 (amended): with both variables unset the diagnostic is
logged and the result is `null`; with both set non-empty the instance is
constructed. -/
theorem startPagerDutyService_gate_witness :
    Effect.log [missingApiKeyMsg]
      ∈ (startPagerDutyService (Env.mk none none)).2
    ∧ (startPagerDutyService (Env.mk (some "key1") (some "SVC1"))).1
        = some ⟨"key1", "SVC1"⟩ :=
  ⟨(startPagerDutyService_gate (Env.mk none none)).2.1 (by decide),
   (startPagerDutyService_gate (Env.mk (some "key1") (some "SVC1"))).2.2.2
     (by decide)⟩

/-- Counterexample to C5 as stated: the escalation-policy enumeration does
not have four values — no four pairwise distinct `IncidentPolicy` values
exist (the enum has exactly the three members keyed by the table). -/
theorem incidentPolicy_not_four :
    ¬ ∃ a b c d : IncidentPolicy,
        a ≠ b ∧ a ≠ c ∧ a ≠ d ∧ b ≠ c ∧ b ≠ d ∧ c ≠ d := by
  decide

/-- C5 (amended): for all three escalation-policy enum values defined,
`getPolicyId` over the fixed `ESCALATION_POLICIES` table returns a
non-empty provider identifier string; the table is a fixed mapping with
three entries. -/
theorem getPolicyId_nonempty_three :
    (∀ p : IncidentPolicy, getPolicyId p ≠ "")
    ∧ (∀ p : IncidentPolicy,
        p ∈ [IncidentPolicy.Everyone, IncidentPolicy.JustIvan,
          IncidentPolicy.JustRichard])
    ∧ ([IncidentPolicy.Everyone, IncidentPolicy.JustIvan,
        IncidentPolicy.JustRichard] : List IncidentPolicy).length = 3 := by
  refine ⟨?_, ?_, rfl⟩ <;> decide

/-- C9: when `PAGER_DUTY_API_KEY` is truthy but `PAGER_DUTY_SERVICE_ID` is
not, `startPagerDutyService` returns `null` and logs a diagnostic whose
text names `PAGER_DUTY_API_KEY` — the identical copy-paste text of the
first missing-variable branch — rather than `PAGER_DUTY_SERVICE_ID`. -/
theorem startPagerDutyService_wrong_diagnostic (env : Env)
    (h1 : truthy env.PAGER_DUTY_API_KEY = true)
    (h2 : truthy env.PAGER_DUTY_SERVICE_ID = false) :
    (startPagerDutyService env).1 = none
    ∧ (startPagerDutyService env).2
        = [Effect.log [initLogMsg], Effect.log [missingApiKeyMsg]]
    ∧ (startPagerDutyService env).2
        = (startPagerDutyService (Env.mk none env.PAGER_DUTY_SERVICE_ID)).2
    ∧ ("PAGER_DUTY_API_KEY".toList.isSuffixOf missingApiKeyMsg.toList) = true
    ∧ ("PAGER_DUTY_SERVICE_ID".toList.isSuffixOf missingApiKeyMsg.toList)
        = false := by
  refine ⟨?_, ?_, ?_,
    by set_option maxRecDepth 8192 in decide,
    by set_option maxRecDepth 8192 in decide⟩ <;>
    simp [startPagerDutyService, h1, h2]

/-- Witness for C9: the API key set (non-empty), the service id unset. -/
theorem startPagerDutyService_wrong_diagnostic_witness :
    (startPagerDutyService (Env.mk (some "key1") none)).1 = none
    ∧ (startPagerDutyService (Env.mk (some "key1") none)).2
        = [Effect.log [initLogMsg], Effect.log [missingApiKeyMsg]]
    ∧ (startPagerDutyService (Env.mk (some "key1") none)).2
        = (startPagerDutyService (Env.mk none none)).2
    ∧ ("PAGER_DUTY_API_KEY".toList.isSuffixOf missingApiKeyMsg.toList) = true
    ∧ ("PAGER_DUTY_SERVICE_ID".toList.isSuffixOf missingApiKeyMsg.toList)
        = false :=
  startPagerDutyService_wrong_diagnostic (Env.mk (some "key1") none)
    (by decide) (by decide)

end PagerDuty
